import Mathlib

/-!
A shallow embedding of app.py, a Streamlit dashboard for Malaysian crop
production analytics.  The embedded parts are the ones the verified
properties speak about: the prediction block of page 4 (lines 153-178),
the year slider and selectbox option computation (lines 156-162), the
EDA log-scale transforms (lines 86 and 101-102), and the loaded tables.

Python floats and the numpy real-valued functions are modelled over the
real numbers; Python exceptions are modelled as an Except value carrying
the exception class name, since app.py has no try/except and any raised
exception propagates unchanged to the Streamlit runtime.
-/

namespace CropApp

/-- A Python scalar value as it may appear in a widget output or in a
DataFrame cell: a string, an int, or a float (modelled as a rational). -/
inductive PyVal where
  | str (s : String)
  | int (n : Int)
  | float (q : ℚ)
deriving DecidableEq, Repr

/-- A pandas DataFrame, modelled as a list of named columns, each column a
list of cell values.  app.py builds input_df from a dict of column name to
singleton list (lines 166-170). -/
abbrev DataFrame : Type := List (String × List PyVal)

/-- The column names of a DataFrame, in order. -/
def dfColumns (d : DataFrame) : List String :=
  List.map (fun p => p.1) d

/-- Look up a column of a DataFrame by name. -/
def dfGetCol (d : DataFrame) (k : String) : Option (List PyVal) :=
  Option.map (fun p => p.2) (List.find? (fun p => p.1 == k) d)

/-- Lines 166-170 of app.py: the single-row DataFrame handed to the model,
with exactly the columns state, crop_type and year, each holding one cell
with the corresponding widget output. -/
def mkInputDf (state crop year : PyVal) : DataFrame :=
  [("state", [state]), ("crop_type", [crop]), ("year", [year])]

/-- np.expm1 (line 176 of app.py), over the reals. -/
noncomputable def expm1 (y : ℝ) : ℝ := Real.exp y - 1

/-- The mathematical log1p function.  app.py never computes it; the spec
assumes the training labels were produced by it, and the round-trip claim
quantifies over it. -/
noncomputable def log1p (p : ℝ) : ℝ := Real.log (1 + p)

/-- The model capability (line 173 of app.py treats the loaded model as an
opaque object with one method).  A call either raises a Python exception,
identified here by its class name, or returns a list of log-space
predictions. -/
abbrev Model : Type := DataFrame → Except String (List ℝ)

/-- Lines 164-178 of app.py: the body of the Predict Production button.
It builds input_df, calls model.predict on it, takes element 0 of the
result (numpy raises IndexError when the result is empty) and applies
np.expm1.  app.py has no try/except and defines no exception classes of
its own, so an exception raised by predict propagates unchanged. -/
noncomputable def predictionBlockRun (model : Model) (state crop year : PyVal) :
    Except String ℝ :=
  let input_df := mkInputDf state crop year
  match model input_df with
  | Except.error e => Except.error e
  | Except.ok log_prediction =>
    match log_prediction.head? with
    | none => Except.error "IndexError"
    | some y => Except.ok (expm1 y)

/-- Claim C1: for every prediction request, the value the adapter produces
equals expm1 applied to the first element of the model output, that is,
production = exp(y_log) - 1 where y_log is the log-space prediction. -/
theorem adapter_is_expm1_of_first (m : Model) (s c y : PyVal) (v : ℝ)
    (t : List ℝ) (h : m (mkInputDf s c y) = Except.ok (v :: t)) :
    predictionBlockRun m s c y = Except.ok (Real.exp v - 1) := by
  simp [predictionBlockRun, h, expm1]

/-- Witness for C1: a stub model whose predict always returns a singleton
zero makes the adapter return zero, since expm1 0 = 0. -/
theorem adapter_is_expm1_of_first_witness :
    predictionBlockRun (fun _ => Except.ok [0]) (PyVal.str "Selangor")
      (PyVal.str "Rice") (PyVal.int 2023) = Except.ok 0 := by
  rw [adapter_is_expm1_of_first (fun _ => Except.ok [0]) (PyVal.str "Selangor")
    (PyVal.str "Rice") (PyVal.int 2023) 0 [] rfl]
  simp

/-- Counterexample to claim C2: when the model predict raises (here a
ValueError), the button block fails with that raw exception, not with an
InferenceError — app.py defines no InferenceError class. -/
theorem model_raise_not_inference_error :
    predictionBlockRun (fun _ => Except.error "ValueError")
      (PyVal.str "Selangor") (PyVal.str "Rice") (PyVal.int 2024) ≠
      Except.error "InferenceError" := by
  simp [predictionBlockRun, mkInputDf]

/-- Claim C2 as amended: a failure of the model predict call is not
swallowed — the raised exception propagates to the caller unchanged — and
an empty prediction result makes the block fail with IndexError from the
element-0 access; but no dedicated InferenceError type exists. -/
theorem model_failure_propagates :
    (∀ (m : Model) (s c y : PyVal) (e : String),
        m (mkInputDf s c y) = Except.error e →
        predictionBlockRun m s c y = Except.error e) ∧
    (∀ (m : Model) (s c y : PyVal),
        m (mkInputDf s c y) = Except.ok [] →
        predictionBlockRun m s c y = Except.error "IndexError") := by
  constructor
  · intro m s c y e h
    simp [predictionBlockRun, h]
  · intro m s c y h
    simp [predictionBlockRun, h]

/-- Witness for the amended C2, at a raising stub model and at an
empty-result stub model. -/
theorem model_failure_propagates_witness :
    predictionBlockRun (fun _ => Except.error "RuntimeError")
      (PyVal.str "Johor") (PyVal.str "Banana") (PyVal.int 2020) =
      Except.error "RuntimeError" ∧
    predictionBlockRun (fun _ => Except.ok [])
      (PyVal.str "Johor") (PyVal.str "Banana") (PyVal.int 2020) =
      Except.error "IndexError" :=
  ⟨model_failure_propagates.1 (fun _ => Except.error "RuntimeError")
      (PyVal.str "Johor") (PyVal.str "Banana") (PyVal.int 2020)
      "RuntimeError" rfl,
   model_failure_propagates.2 (fun _ => Except.ok [])
      (PyVal.str "Johor") (PyVal.str "Banana") (PyVal.int 2020) rfl⟩

/-- Counterexample to claim C3: a request whose year is the non-integer
float 2023.5 does not make the block fail with MalformedInputError — the
block performs no input validation and app.py defines no
MalformedInputError class, so the request flows to the model unchecked. -/
theorem nonint_year_not_malformed_error :
    predictionBlockRun (fun _ => Except.ok [0]) (PyVal.str "Selangor")
      (PyVal.str "Rice") (PyVal.float (4047 / 2)) ≠
      Except.error "MalformedInputError" := by
  simp [predictionBlockRun, mkInputDf]

/-- Claim C3 as amended: the button block validates nothing — every error
it can produce either is the exception the model itself raised or is the
IndexError from indexing an empty result; in particular a non-integer
year is passed through to the model and, when the model answers, the
block succeeds as usual. -/
theorem no_input_validation :
    (∀ (m : Model) (s c y : PyVal) (e : String),
        predictionBlockRun m s c y = Except.error e →
        m (mkInputDf s c y) = Except.error e ∨ e = "IndexError") ∧
    (∀ (m : Model) (s c : PyVal) (q : ℚ) (v : ℝ) (t : List ℝ),
        m (mkInputDf s c (PyVal.float q)) = Except.ok (v :: t) →
        predictionBlockRun m s c (PyVal.float q) = Except.ok (expm1 v)) := by
  constructor
  · intro m s c y e h
    revert h
    unfold predictionBlockRun
    cases hm : m (mkInputDf s c y) with
    | error e₀ => intro h; left; simp_all
    | ok ys =>
      cases ys with
      | nil => intro h; right; simp_all
      | cons v t => intro h; simp_all
  · intro m s c q v t h
    simp [predictionBlockRun, h]

/-- Witness for the amended C3, at a raising stub model and at a stub
model answering a float-year request. -/
theorem no_input_validation_witness :
    ((fun (_ : DataFrame) => Except.error (ε := String) (α := List ℝ) "KeyError")
        (mkInputDf (PyVal.str "Perak") (PyVal.str "Rice") (PyVal.int 2021)) =
        Except.error "KeyError" ∨ "KeyError" = "IndexError") ∧
    predictionBlockRun (fun _ => Except.ok [2]) (PyVal.str "Perak")
      (PyVal.str "Rice") (PyVal.float (4047 / 2)) = Except.ok (expm1 2) :=
  ⟨no_input_validation.1 (fun _ => Except.error "KeyError") (PyVal.str "Perak")
      (PyVal.str "Rice") (PyVal.int 2021) "KeyError" rfl,
   no_input_validation.2 (fun _ => Except.ok [2]) (PyVal.str "Perak")
      (PyVal.str "Rice") ((4047 : ℚ) / 2) 2 [] rfl⟩

/-- Claim C4: the record handed to the model predict capability is a
single row with exactly the three columns state, crop_type and year, in
that order, holding the user-selected values; and the block result
depends on the model only through its value at that record. -/
theorem input_record_shape (s c y : PyVal) :
    dfColumns (mkInputDf s c y) = ["state", "crop_type", "year"] ∧
    dfGetCol (mkInputDf s c y) "state" = some [s] ∧
    dfGetCol (mkInputDf s c y) "crop_type" = some [c] ∧
    dfGetCol (mkInputDf s c y) "year" = some [y] ∧
    (∀ col ∈ mkInputDf s c y, col.2.length = 1) ∧
    (∀ m₁ m₂ : Model, m₁ (mkInputDf s c y) = m₂ (mkInputDf s c y) →
        predictionBlockRun m₁ s c y = predictionBlockRun m₂ s c y) := by
  refine ⟨rfl, rfl, rfl, rfl, ?_, ?_⟩
  · intro col hcol
    simp [mkInputDf] at hcol
    rcases hcol with h | h | h <;> simp [h]
  · intro m₁ m₂ h
    simp [predictionBlockRun, h]

/-- Witness for C4: the shape facts at a concrete selection, and the
model-dependency fact at two definitionally equal stub models. -/
theorem input_record_shape_witness :
    dfColumns (mkInputDf (PyVal.str "Kedah") (PyVal.str "Durian")
        (PyVal.int 2022)) = ["state", "crop_type", "year"] ∧
    predictionBlockRun (fun _ => Except.ok [5]) (PyVal.str "Kedah")
        (PyVal.str "Durian") (PyVal.int 2022) =
      predictionBlockRun (fun d => (fun _ => Except.ok [5]) d)
        (PyVal.str "Kedah") (PyVal.str "Durian") (PyVal.int 2022) :=
  ⟨(input_record_shape (PyVal.str "Kedah") (PyVal.str "Durian")
      (PyVal.int 2022)).1,
   (input_record_shape (PyVal.str "Kedah") (PyVal.str "Durian")
      (PyVal.int 2022)).2.2.2.2.2 (fun _ => Except.ok [5])
      (fun d => (fun _ => Except.ok [5]) d) rfl⟩

/-- One row of data/final_crop.csv as loaded at line 30 of app.py; the
production figure, a Python float, is modelled as a rational. -/
structure CropRecord where
  state : String
  crop_type : String
  year : Int
  production : ℚ
deriving DecidableEq, Repr

/-- Line 83 of app.py: the rows of the loaded table whose crop_type equals
the selected crop. -/
def filterCrop (df : List CropRecord) (c : String) : List CropRecord :=
  df.filter (fun r => r.crop_type == c)

/-- Line 86 of app.py, elementwise: np.log10(production + 1), the
log-scale column of the EDA trend chart. -/
noncomputable def log_production (p : ℝ) : ℝ := Real.logb 10 (p + 1)

/-- Line 86 of app.py applied to the filtered frame: the log_production
column added for the trend chart. -/
noncomputable def edaLogColumn (filtered : List CropRecord) : List ℝ :=
  filtered.map (fun r => log_production (r.production : ℝ))

/-- Line 101 of app.py: the summed production of one state. -/
def stateTotal (df : List CropRecord) (s : String) : ℚ :=
  (((df.filter (fun r => r.state == s)).map (fun r => r.production)).sum)

/-- Line 102 of app.py: np.log10(total production + 1), the histogram
column of the EDA distribution chart. -/
noncomputable def log_total (df : List CropRecord) (s : String) : ℝ :=
  Real.logb 10 ((stateTotal df s : ℝ) + 1)

/-- The natural logarithm of 10 exceeds 1, because exp 1 < 3 < 10. -/
theorem one_lt_log_ten : 1 < Real.log 10 := by
  have h3 : Real.exp 1 < 10 :=
    lt_trans Real.exp_one_lt_d9 (by norm_num)
  have := Real.exp_log (by norm_num : (0 : ℝ) < 10)
  by_contra hle
  push_neg at hle
  have : (10 : ℝ) ≤ Real.exp 1 := by
    calc (10 : ℝ) = Real.exp (Real.log 10) := this.symm
    _ ≤ Real.exp 1 := Real.exp_le_exp.mpr hle
  linarith

/-- Counterexample to claim C5: the EDA page applies a transform other
than the log1p/expm1 pair to production values — the chart column built
at line 86 sends the production value 9 to log10(10) = 1, while log1p
sends 9 to log(10), which is not 1. -/
theorem eda_uses_log10_not_log1p :
    edaLogColumn (filterCrop [⟨"Johor", "Rice", 2020, 9⟩] "Rice") =
      [log_production 9] ∧
    log_production 9 = 1 ∧ log1p 9 ≠ 1 := by
  refine ⟨?_, ?_, ?_⟩
  · show [log_production ((9 : ℚ) : ℝ)] = [log_production 9]
    norm_num
  · show Real.logb 10 (9 + 1) = 1
    norm_num [Real.logb_self_eq_one (by norm_num : (1 : ℝ) < 10)]
  · show Real.log (1 + 9) ≠ 1
    have := one_lt_log_ten
    norm_num
    linarith

/-- Claim C5 as amended: on the prediction page the only transform applied
to the model output is expm1, but the EDA page applies a different,
base-10 transform to production values: both chart columns compute
log10(x + 1), so raising 10 to the transformed value recovers x + 1. -/
theorem prediction_expm1_eda_log10 :
    (∀ (m : Model) (s c y : PyVal) (v : ℝ) (t : List ℝ),
        m (mkInputDf s c y) = Except.ok (v :: t) →
        predictionBlockRun m s c y = Except.ok (expm1 v)) ∧
    (∀ p : ℝ, -1 < p → (10 : ℝ) ^ log_production p = p + 1) ∧
    (∀ (df : List CropRecord) (s : String), -1 < (stateTotal df s : ℝ) →
        (10 : ℝ) ^ log_total df s = (stateTotal df s : ℝ) + 1) := by
  refine ⟨?_, ?_, ?_⟩
  · intro m s c y v t h
    simp [predictionBlockRun, h]
  · intro p hp
    exact Real.rpow_logb (by norm_num) (by norm_num) (by linarith)
  · intro df s hs
    exact Real.rpow_logb (by norm_num) (by norm_num) (by linarith)

/-- Witness for the amended C5: the expm1 path at a stub model, and the
base-10 recovery at the production value 0 and at a one-row table. -/
theorem prediction_expm1_eda_log10_witness :
    predictionBlockRun (fun _ => Except.ok [2]) (PyVal.str "Melaka")
      (PyVal.str "Rice") (PyVal.int 2019) = Except.ok (expm1 2) ∧
    (10 : ℝ) ^ log_production 0 = 0 + 1 ∧
    (10 : ℝ) ^ log_total [⟨"Melaka", "Rice", 2019, 4⟩] "Melaka" =
      ((stateTotal [⟨"Melaka", "Rice", 2019, 4⟩] "Melaka" : ℚ) : ℝ) + 1 :=
  ⟨prediction_expm1_eda_log10.1 (fun _ => Except.ok [2]) (PyVal.str "Melaka")
      (PyVal.str "Rice") (PyVal.int 2019) 2 [] rfl,
   prediction_expm1_eda_log10.2.1 0 (by norm_num),
   prediction_expm1_eda_log10.2.2 [⟨"Melaka", "Rice", 2019, 4⟩] "Melaka"
      (by norm_num [stateTotal])⟩

/-- Claim C6: the round-trip law — for every real p at least 0, expm1
applied to log1p of p gives back exactly p (over the reals the identity
is exact, hence in particular within any floating-point tolerance),
independently of the model. -/
theorem expm1_log1p_roundtrip (p : ℝ) (h : 0 ≤ p) : expm1 (log1p p) = p := by
  have hpos : (0 : ℝ) < 1 + p := by linarith
  simp [expm1, log1p, Real.exp_log hpos]

/-- Witness for C6 at p = 3. -/
theorem expm1_log1p_roundtrip_witness :
    (0 : ℝ) ≤ 3 ∧ expm1 (log1p 3) = 3 :=
  ⟨by norm_num, expm1_log1p_roundtrip 3 (by norm_num)⟩

/-- Claim C7: when the model emits a log-space prediction that is a valid
log1p output (at least 0), the production value the block returns is
non-negative. -/
theorem adapter_nonneg (m : Model) (s c y : PyVal) (v : ℝ) (t : List ℝ)
    (h : m (mkInputDf s c y) = Except.ok (v :: t)) (hv : 0 ≤ v) :
    predictionBlockRun m s c y = Except.ok (expm1 v) ∧ 0 ≤ expm1 v := by
  constructor
  · simp [predictionBlockRun, h]
  · have := Real.add_one_le_exp v
    simp only [expm1]
    linarith

/-- Witness for C7 at a stub model emitting the log-space value 1. -/
theorem adapter_nonneg_witness :
    predictionBlockRun (fun _ => Except.ok [1]) (PyVal.str "Sabah")
      (PyVal.str "Rice") (PyVal.int 2023) = Except.ok (expm1 1) ∧
    0 ≤ expm1 1 :=
  adapter_nonneg (fun _ => Except.ok [1]) (PyVal.str "Sabah")
    (PyVal.str "Rice") (PyVal.int 2023) 1 [] rfl (by norm_num)

/-- Line 156 of app.py: the State selectbox options,
sorted(df["state"].unique()). -/
def stateOptions (df : List CropRecord) : List String :=
  ((df.map (fun r => r.state)).dedup).mergeSort (fun a b => decide (a ≤ b))

/-- Line 159 of app.py: the Crop Type selectbox options,
sorted(df["crop_type"].unique()). -/
def cropOptions (df : List CropRecord) : List String :=
  ((df.map (fun r => r.crop_type)).dedup).mergeSort (fun a b => decide (a ≤ b))

/-- The year column of the loaded table. -/
def obsYears (df : List CropRecord) : List Int :=
  df.map (fun r => r.year)

/-- Line 162 of app.py, lower slider bound: int(df["year"].min());
none when the table is empty (pandas would yield NaN there). -/
def sliderLo (df : List CropRecord) : Option Int :=
  (obsYears df).min?

/-- Line 162 of app.py, upper slider bound: int(df["year"].max() + 3). -/
def sliderHi (df : List CropRecord) : Option Int :=
  Option.map (fun n => n + 3) (obsYears df).max?

/-- The Streamlit slider contract at line 162: the returned year lies
between the bounds the call passes. -/
def sliderPermits (df : List CropRecord) (y : Int) : Prop :=
  ∃ lo hi, sliderLo df = some lo ∧ sliderHi df = some hi ∧ lo ≤ y ∧ y ≤ hi

/-- A member of the sorted deduplicated state options is exactly a state
value occurring in the table. -/
theorem mem_stateOptions {df : List CropRecord} {s : String} :
    s ∈ stateOptions df ↔ ∃ r ∈ df, r.state = s := by
  simp [stateOptions, List.mem_dedup]

/-- A member of the sorted deduplicated crop options is exactly a
crop_type value occurring in the table. -/
theorem mem_cropOptions {df : List CropRecord} {c : String} :
    c ∈ cropOptions df ↔ ∃ r ∈ df, r.crop_type = c := by
  simp [cropOptions, List.mem_dedup]

/-- On a non-empty table the slider admits a year exactly when some
observed year is at most it and it is at most some observed year plus 3. -/
theorem sliderPermits_iff (df : List CropRecord) (y : Int) (h : df ≠ []) :
    sliderPermits df y ↔
      (∃ o ∈ obsYears df, o ≤ y) ∧ (∃ o ∈ obsYears df, y ≤ o + 3) := by
  have hne : obsYears df ≠ [] := by
    simpa [obsYears] using h
  obtain ⟨lo, hlo⟩ : ∃ lo, (obsYears df).min? = some lo := by
    cases hmin : (obsYears df).min? with
    | none => exact absurd (List.min?_eq_none_iff.mp hmin) hne
    | some lo => exact ⟨lo, rfl⟩
  obtain ⟨hm, hhi⟩ : ∃ hm, (obsYears df).max? = some hm := by
    cases hmax : (obsYears df).max? with
    | none => exact absurd (List.max?_eq_none_iff.mp hmax) hne
    | some hm => exact ⟨hm, rfl⟩
  have lo_mem : lo ∈ obsYears df :=
    List.min?_mem (fun a b => min_choice a b) hlo
  have lo_le : ∀ b ∈ obsYears df, lo ≤ b :=
    fun b hb =>
      (List.le_min?_iff (fun _ _ _ => le_min_iff) hlo).mp (le_refl lo) b hb
  have hm_mem : hm ∈ obsYears df :=
    List.max?_mem (fun a b => max_choice a b) hhi
  have hm_ge : ∀ b ∈ obsYears df, b ≤ hm :=
    fun b hb =>
      (List.max?_le_iff (fun _ _ _ => max_le_iff) hhi).mp (le_refl hm) b hb
  constructor
  · rintro ⟨lo', hi', hlo', hhi', h₁, h₂⟩
    rw [sliderLo, hlo] at hlo'
    rw [sliderHi, hhi] at hhi'
    cases hlo'
    have : hi' = hm + 3 := by simpa using hhi'.symm
    subst this
    exact ⟨⟨lo, lo_mem, h₁⟩, ⟨hm, hm_mem, h₂⟩⟩
  · rintro ⟨⟨o₁, ho₁, h₁⟩, ⟨o₂, ho₂, h₂⟩⟩
    refine ⟨lo, hm + 3, by simp [sliderLo, hlo], by simp [sliderHi, hhi],
      le_trans (lo_le o₁ ho₁) h₁, le_trans h₂ (by have := hm_ge o₂ ho₂; omega)⟩

/-- Claim C8: on a non-empty table the year slider constrains the chosen
year to the closed interval from the smallest observed year to the
largest observed year plus 3 — at most three years of extrapolation
beyond the last observed year. -/
theorem year_slider_bounds (df : List CropRecord) (y : Int) (h : df ≠ []) :
    sliderPermits df y ↔
      (∃ o ∈ obsYears df, o ≤ y) ∧ (∃ o ∈ obsYears df, y ≤ o + 3) :=
  sliderPermits_iff df y h

/-- A two-row table used to instantiate the widget-layer theorems. -/
def demoDf : List CropRecord :=
  [⟨"Johor", "Rice", 2019, 100⟩, ⟨"Selangor", "Banana", 2023, 50⟩]

/-- Witness for C8: on the two-row table, whose observed years are 2019
and 2023, the year 2025 is admitted and the characterization holds. -/
theorem year_slider_bounds_witness :
    demoDf ≠ [] ∧
    (sliderPermits demoDf 2025 ↔
      (∃ o ∈ obsYears demoDf, o ≤ 2025) ∧
      (∃ o ∈ obsYears demoDf, 2025 ≤ o + 3)) :=
  ⟨by decide, year_slider_bounds demoDf 2025 (by decide)⟩

/-- Claim C10: every prediction request the page-4 widgets can construct
satisfies the categorical-membership precondition the inline code merely
trusts — the chosen state occurs as a state value of the loaded table,
the chosen crop occurs as a crop_type value, and the integer year is
bracketed by observed years: some observed year is at most it and it
exceeds no observed year by more than 3. -/
theorem ui_request_in_domain (df : List CropRecord) (s c : String)
    (y : Int) (hs : s ∈ stateOptions df) (hc : c ∈ cropOptions df)
    (hy : sliderPermits df y) :
    (∃ r ∈ df, r.state = s) ∧ (∃ r ∈ df, r.crop_type = c) ∧
    (∃ o ∈ obsYears df, o ≤ y) ∧ (∃ o ∈ obsYears df, y ≤ o + 3) := by
  have hstate := mem_stateOptions.mp hs
  have hcrop := mem_cropOptions.mp hc
  have hne : df ≠ [] := by
    rcases hstate with ⟨r, hr, -⟩
    exact List.ne_nil_of_mem hr
  have hbound := (sliderPermits_iff df y hne).mp hy
  exact ⟨hstate, hcrop, hbound.1, hbound.2⟩

/-- Witness for C10 on the two-row table, choosing Johor, Rice and 2025. -/
theorem ui_request_in_domain_witness :
    ("Johor" ∈ stateOptions demoDf ∧ "Rice" ∈ cropOptions demoDf ∧
      sliderPermits demoDf 2025) ∧
    ((∃ r ∈ demoDf, r.state = "Johor") ∧
      (∃ r ∈ demoDf, r.crop_type = "Rice") ∧
      (∃ o ∈ obsYears demoDf, o ≤ 2025) ∧
      (∃ o ∈ obsYears demoDf, 2025 ≤ o + 3)) := by
  have hs : "Johor" ∈ stateOptions demoDf := by
    simp [stateOptions, demoDf, List.mem_dedup]
  have hc : "Rice" ∈ cropOptions demoDf := by
    simp [cropOptions, demoDf, List.mem_dedup]
  have hy : sliderPermits demoDf 2025 :=
    ⟨2019, 2026, by decide, by decide, by decide, by decide⟩
  exact ⟨⟨hs, hc, hy⟩, ui_request_in_domain demoDf "Johor" "Rice" 2025 hs hc hy⟩

/-- One row of data/state_clusters.csv as loaded at line 31 of app.py. -/
structure ClusterRow where
  state : String
  avg_production : ℚ
  growth_rate : ℚ
  variability : ℚ
  cluster_label : String
deriving DecidableEq, Repr

/-- The process-wide shared state of app.py after the loads of lines
30-32: the crop table df, the cluster table cluster_df, and the model. -/
structure AppState where
  df : List CropRecord
  cluster_df : List ClusterRow
  model : Model

/-- Lines 164-178 of app.py as a transition on the shared state: the
button block binds the local input_df, calls predict on the shared model,
applies np.expm1 and displays; no statement in the block assigns to df,
cluster_df or model, so the shared state passes through unchanged and the
block yields only the displayed value. -/
noncomputable def predictionClick (st : AppState) (state crop : String)
    (year : Int) : AppState × Except String ℝ :=
  (st, predictionBlockRun st.model (PyVal.str state) (PyVal.str crop)
    (PyVal.int year))

/-- Claim C9: running the prediction block leaves the loaded crop table,
the cluster table and the model unchanged, and its result is exactly the
value of the stateless prediction computation on the shared model. -/
theorem prediction_no_side_effects (st : AppState) (state crop : String)
    (year : Int) :
    (predictionClick st state crop year).1.df = st.df ∧
    (predictionClick st state crop year).1.cluster_df = st.cluster_df ∧
    (predictionClick st state crop year).1.model = st.model ∧
    (predictionClick st state crop year).2 =
      predictionBlockRun st.model (PyVal.str state) (PyVal.str crop)
        (PyVal.int year) :=
  ⟨rfl, rfl, rfl, rfl⟩

end CropApp
